import Mathlib

/-
  Verification of the BlockV remote-block-device project against its
  natural-language specification.

  The development shallowly embeds the parts of the source the claims are
  about:
  * the wire codec of blockv_protocol.hh (five packed message kinds with
    htonl/ntohl byte-order conversion at the boundary);
  * the server-side backing stores (block_device with a 64-bit offset and
    an explicit overflow check, and the older pseudo_block_device with
    32-bit arithmetic and no such check);
  * the server dispatch loop handle_client_requests (request validation,
    READ / WRITE / FINISH handling, multi-message write reassembly);
  * the client-side read path of network_block_device::read;
  * the FUSE-side device registry of blockv_fuse.cc (create, truncate,
    readlink).

  Machine integers are modelled as Nat with explicit reductions modulo
  2^32 / 2^64 exactly where the C++ arithmetic wraps or truncates.
-/

/-! ## Byte-order conversion

htonl / ntohl on a 32-bit value.  On the little-endian hosts the project
targets both are the byte reversal of the 32-bit representation; either way
they are mutually inverse, which is all the codec claims rely on. -/

def hton32 (x : Nat) : Nat :=
  (x % 256) * 16777216 + (x / 256 % 256) * 65536 +
    (x / 65536 % 256) * 256 + (x / 16777216 % 256)

def ntoh32 (x : Nat) : Nat :=
  (x % 256) * 16777216 + (x / 256 % 256) * 65536 +
    (x / 65536 % 256) * 256 + (x / 16777216 % 256)

theorem ntoh32_bytes (b0 b1 b2 b3 : Nat)
    (h0 : b0 < 256) (h1 : b1 < 256) (h2 : b2 < 256) (h3 : b3 < 256) :
    ntoh32 (b0 * 16777216 + b1 * 65536 + b2 * 256 + b3) =
      b3 * 16777216 + b2 * 65536 + b1 * 256 + b0 := by
  unfold ntoh32
  omega

theorem ntoh32_hton32 (x : Nat) (h : x < 2 ^ 32) : ntoh32 (hton32 x) = x := by
  have hb : hton32 x =
      (x % 256) * 16777216 + (x / 256 % 256) * 65536 +
        (x / 65536 % 256) * 256 + (x / 16777216 % 256) := rfl
  rw [hb, ntoh32_bytes _ _ _ _ (Nat.mod_lt _ (by norm_num))
    (Nat.mod_lt _ (by norm_num)) (Nat.mod_lt _ (by norm_num))
    (Nat.mod_lt _ (by norm_num))]
  have hq1 : x / 65536 = x / 256 / 256 := by rw [Nat.div_div_eq_div_mul]
  have hq2 : x / 16777216 = x / 65536 / 256 := by rw [Nat.div_div_eq_div_mul]
  omega

/-! ## Wire messages (blockv_protocol.hh)

Each packed struct becomes a structure of host-width naturals; `to_network`
builds the struct with the integer fields already byte-swapped, `to_host`
swaps them back in place, exactly as in the source.  The flexible array
member `char buf[]` of blockv_read_response is the adjacent payload and is
modelled separately where the server uses it; blockv_write_request carries
its payload as a list of bytes. -/

def BLOCKV_MAGIC_VALUE : Nat := 0xB0B0B0B0

def blockv_requests.FIRST : Nat := 0xB0
def blockv_requests.READ : Nat := 0xB1
def blockv_requests.WRITE : Nat := 0xB2
def blockv_requests.FINISH : Nat := 0xB3
def blockv_requests.LAST : Nat := blockv_requests.FINISH + 1

structure blockv_server_info where
  magic_value : Nat
  device_size : Nat
  read_only : Nat
deriving DecidableEq

def blockv_server_info.is_valid (s : blockv_server_info) : Bool :=
  s.magic_value == BLOCKV_MAGIC_VALUE

def blockv_server_info.to_network (device_size : Nat) (read_only : Bool) :
    blockv_server_info :=
  { magic_value := hton32 BLOCKV_MAGIC_VALUE
    device_size := hton32 device_size
    read_only := if read_only then 1 else 0 }

def blockv_server_info.to_host (s : blockv_server_info) : blockv_server_info :=
  { s with
    magic_value := ntoh32 s.magic_value
    device_size := ntoh32 s.device_size }

structure blockv_read_request where
  request : Nat
  size : Nat
  offset : Nat
deriving DecidableEq

def blockv_read_request.to_network (size offset : Nat) : blockv_read_request :=
  { request := blockv_requests.READ, size := hton32 size, offset := hton32 offset }

def blockv_read_request.to_host (r : blockv_read_request) : blockv_read_request :=
  { r with size := ntoh32 r.size, offset := ntoh32 r.offset }

structure blockv_read_response where
  size : Nat
deriving DecidableEq

def blockv_read_response.to_network (buf_size : Nat) : blockv_read_response :=
  { size := hton32 buf_size }

def blockv_read_response.set_size_to_network (r : blockv_read_response)
    (new_size : Nat) : blockv_read_response :=
  { r with size := hton32 new_size }

def blockv_read_response.to_host (r : blockv_read_response) : blockv_read_response :=
  { r with size := ntoh32 r.size }

structure blockv_write_request where
  request : Nat
  size : Nat
  offset : Nat
  buf : List Nat
deriving DecidableEq

-- memcpy(to->buf, buf, buf_size) copies exactly buf_size bytes of the caller's
-- buffer into the message.
def blockv_write_request.to_network (buf : List Nat) (buf_size off : Nat) :
    blockv_write_request :=
  { request := blockv_requests.WRITE
    size := hton32 buf_size
    offset := hton32 off
    buf := buf.take buf_size }

def blockv_write_request.to_host (w : blockv_write_request) : blockv_write_request :=
  { w with size := ntoh32 w.size, offset := ntoh32 w.offset }

structure blockv_write_response where
  size : Nat
deriving DecidableEq

def blockv_write_response.to_network (size : Nat) : blockv_write_response :=
  { size := hton32 size }

def blockv_write_response.to_host (w : blockv_write_response) : blockv_write_response :=
  { w with size := ntoh32 w.size }

def blockv_request.is_valid (kind : Nat) : Bool :=
  decide (blockv_requests.FIRST < kind) && decide (kind < blockv_requests.LAST)

/-- C2: for every message of the five wire kinds, decoding with to_host after
constructing with to_network yields the original field values, field for
field (round-trip identity of the codec), for field values within the 32-bit
width of the wire format. -/
theorem codec_round_trip
    (d : Nat) (ro : Bool) (sz off : Nat) (wbuf : List Nat) (woff : Nat)
    (rsz wrsz : Nat)
    (hd : d < 2 ^ 32) (hsz : sz < 2 ^ 32) (hoff : off < 2 ^ 32)
    (hwsz : wbuf.length < 2 ^ 32) (hwoff : woff < 2 ^ 32)
    (hrsz : rsz < 2 ^ 32) (hwrsz : wrsz < 2 ^ 32) :
    blockv_server_info.to_host (blockv_server_info.to_network d ro) =
      { magic_value := BLOCKV_MAGIC_VALUE, device_size := d,
        read_only := if ro then 1 else 0 } ∧
    blockv_read_request.to_host (blockv_read_request.to_network sz off) =
      { request := blockv_requests.READ, size := sz, offset := off } ∧
    blockv_read_response.to_host (blockv_read_response.to_network rsz) =
      { size := rsz } ∧
    blockv_write_request.to_host
        (blockv_write_request.to_network wbuf wbuf.length woff) =
      { request := blockv_requests.WRITE, size := wbuf.length, offset := woff,
        buf := wbuf } ∧
    blockv_write_response.to_host (blockv_write_response.to_network wrsz) =
      { size := wrsz } := by
  refine ⟨?_, ?_, ?_, ?_, ?_⟩
  · have h1 := ntoh32_hton32 BLOCKV_MAGIC_VALUE (by norm_num [BLOCKV_MAGIC_VALUE])
    have h2 := ntoh32_hton32 d hd
    simp [blockv_server_info.to_host, blockv_server_info.to_network, h1, h2]
  · have h1 := ntoh32_hton32 sz hsz
    have h2 := ntoh32_hton32 off hoff
    simp [blockv_read_request.to_host, blockv_read_request.to_network, h1, h2]
  · have h1 := ntoh32_hton32 rsz hrsz
    simp [blockv_read_response.to_host, blockv_read_response.to_network, h1]
  · have h1 := ntoh32_hton32 wbuf.length hwsz
    have h2 := ntoh32_hton32 woff hwoff
    simp [blockv_write_request.to_host, blockv_write_request.to_network, h1, h2]
  · have h1 := ntoh32_hton32 wrsz hwrsz
    simp [blockv_write_response.to_host, blockv_write_response.to_network, h1]

/-- Witness for C2 at concrete field values. -/
theorem codec_round_trip_witness :
    blockv_server_info.to_host (blockv_server_info.to_network 1024 true) =
      { magic_value := BLOCKV_MAGIC_VALUE, device_size := 1024, read_only := 1 } ∧
    blockv_read_request.to_host (blockv_read_request.to_network 5 7) =
      { request := blockv_requests.READ, size := 5, offset := 7 } ∧
    blockv_read_response.to_host (blockv_read_response.to_network 3) =
      { size := 3 } ∧
    blockv_write_request.to_host
        (blockv_write_request.to_network [99, 114, 97, 122, 121] 5 0) =
      { request := blockv_requests.WRITE, size := 5, offset := 0,
        buf := [99, 114, 97, 122, 121] } ∧
    blockv_write_response.to_host (blockv_write_response.to_network 5) =
      { size := 5 } := by
  have h := codec_round_trip 1024 true 5 7 [99, 114, 97, 122, 121] 0 3 5
    (by norm_num) (by norm_num) (by norm_num) (by norm_num) (by norm_num)
    (by norm_num) (by norm_num)
  simpa using h

/-! ## Backing-store size clamping

block_device::get_actual_size (the current server, 64-bit offset, explicit
overflow check) and pseudo_block_device::get_actual_size (the older server,
32-bit arithmetic, no overflow check).  The C++ unsigned arithmetic is made
explicit: the sum offset + size wraps at the width of the wider operand, and
the assignment size = _block_device_size - offset truncates the 64-bit
difference to the 32-bit parameter. -/

def block_device.get_actual_size (device_size size offset : Nat) : Nat :=
  if offset < device_size then
    -- Do nothing if offset + size causes integer overflow.
    if (offset + size) % 2 ^ 64 < offset then 0
    else if (offset + size) % 2 ^ 64 > device_size then
      (device_size - offset) % 2 ^ 32
    else size
  else 0

def pseudo_block_device.get_actual_size (device_size size offset : Nat) : Nat :=
  if offset < device_size then
    if (offset + size) % 2 ^ 32 > device_size then device_size - offset
    else size
  else 0

/-- C1 counterexample: the claim is stated for get_actual_size of both servers,
but pseudo_block_device::get_actual_size has no overflow check.  On a 10-byte
device, at offset 5 with requested size 4294967295 the 32-bit sum offset + size
wraps to 4, so the claim demands an effective size of 0, yet the code returns
the full 4294967295 — which also exceeds both device_size - offset = 5. -/
theorem pseudo_get_actual_size_overflow_counterexample :
    2 ^ 32 ≤ 5 + 4294967295 ∧
    pseudo_block_device.get_actual_size 10 4294967295 5 = 4294967295 ∧
    10 - 5 < pseudo_block_device.get_actual_size 10 4294967295 5 := by
  refine ⟨by norm_num, ?_, ?_⟩ <;> decide

/-- C1 (amended to the implementation that has the overflow check): for
block_device::get_actual_size with in-range arguments (size a u32, offset and
device_size u64), the effective byte count is 0 when offset + size overflows
64 bits, is 0 when offset ≥ device_size, and otherwise equals
min(size, device_size - offset); in particular it never exceeds the requested
size nor device_size - offset. -/
theorem block_device_get_actual_size_spec (device_size size offset : Nat)
    (hs : size < 2 ^ 32) (ho : offset < 2 ^ 64) (hd : device_size < 2 ^ 64) :
    (2 ^ 64 ≤ offset + size →
      block_device.get_actual_size device_size size offset = 0) ∧
    (device_size ≤ offset →
      block_device.get_actual_size device_size size offset = 0) ∧
    (offset < device_size → offset + size < 2 ^ 64 →
      block_device.get_actual_size device_size size offset =
        min size (device_size - offset)) ∧
    block_device.get_actual_size device_size size offset ≤ size ∧
    block_device.get_actual_size device_size size offset ≤ device_size - offset := by
  unfold block_device.get_actual_size
  split
  · split
    · refine ⟨fun _ => rfl, ?_, ?_, Nat.zero_le _, Nat.zero_le _⟩ <;> omega
    · split
      · refine ⟨?_, ?_, ?_, ?_, ?_⟩ <;> omega
      · refine ⟨?_, ?_, ?_, Nat.le_refl _, ?_⟩ <;> omega
  · refine ⟨fun _ => rfl, fun _ => rfl, ?_, Nat.zero_le _, Nat.zero_le _⟩
    omega

/-- Witness for C1 on a 100-byte device: offset 96, size 10 clamps to 4. -/
theorem block_device_get_actual_size_spec_witness :
    block_device.get_actual_size 100 10 96 = min 10 (100 - 96) ∧
    block_device.get_actual_size 100 10 96 ≤ 10 := by
  have h := block_device_get_actual_size_spec 100 10 96
    (by norm_num) (by norm_num) (by norm_num)
  exact ⟨h.2.2.1 (by norm_num) (by norm_num), h.2.2.2.1⟩

/-! ## Server session (handle_client_requests, current server)

The backing store is a byte list plus the read-only flag; pread / pwrite are
modelled as succeeding on the full clamped count.  One iteration of the
dispatch loop takes the decoded incoming message (the codec round-trip is
proven above, so the dispatcher is modelled on host-order fields, with the
raw kind byte kept) and produces the new device state, the responses written
to the socket, and whether the session continues. -/

structure server_device where
  data : List Nat
  read_only : Bool
deriving DecidableEq

-- memcpy into a fixed-size allocation: overwrite dst starting at off with the
-- bytes of src, preserving the untouched prefix and suffix.
def list_store (dst : List Nat) (off : Nat) (src : List Nat) : List Nat :=
  dst.take off ++ src.take (dst.length - off) ++ dst.drop (off + src.length)

-- int block_device::read: clamp via get_actual_size, then pread that many
-- bytes at the offset; returns the bytes and the count.
def block_device.read (d : server_device) (size offset : Nat) : List Nat × Nat :=
  let actual := block_device.get_actual_size d.data.length size offset
  ((d.data.drop offset).take actual, actual)

-- int block_device::write: clamp via get_actual_size, then pwrite that many
-- bytes of buf at the offset; returns the new contents and the count.
def block_device.write (d : server_device) (buf : List Nat) (size offset : Nat) :
    server_device × Nat :=
  let actual := block_device.get_actual_size d.data.length size offset
  ({ d with data := list_store d.data offset (buf.take actual) }, actual)

structure incoming_message where
  kind : Nat
  size : Nat
  offset : Nat
  payload : List Nat
deriving DecidableEq

inductive server_response where
  | read_response (size : Nat) (payload : List Nat)
  | write_response (size : Nat)
deriving DecidableEq

structure step_result where
  dev : server_device
  sent : List server_response
  continue_session : Bool
deriving DecidableEq

-- One iteration of the dispatch loop of handle_client_requests, after a
-- non-empty socket read, on the decoded message.  msg.payload is the
-- fully-reassembled write payload (the reassembly loop is modelled below).
-- Allocation failures are not modelled (allocation always succeeds).
def handle_one_request (dev : server_device) (msg : incoming_message) : step_result :=
  -- kill connection with a client that is unable to send proper requests.
  if blockv_request.is_valid msg.kind = false then
    { dev := dev, sent := [], continue_session := false }
  else if msg.kind = blockv_requests.READ then
    let r := block_device.read dev msg.size msg.offset
    -- the response size is adjusted to what dev.read() returned.
    { dev := dev
      sent := [server_response.read_response r.2 r.1]
      continue_session := true }
  else if msg.kind = blockv_requests.WRITE then
    if dev.read_only then
      { dev := dev, sent := [], continue_session := true }
    else
      let w := block_device.write dev msg.payload msg.size msg.offset
      -- the response carries write_request->size, not w.2.
      { dev := w.1
        sent := [server_response.write_response msg.size]
        continue_session := true }
  else
    -- FINISH, the only remaining valid kind: terminate without responding.
    { dev := dev, sent := [], continue_session := false }

/-- C4: a request kind byte is accepted (is_valid) iff it lies strictly
between FIRST = 0xB0 and LAST = 0xB4, and on any message whose kind byte is
outside that open interval the dispatch loop exits without sending a
response and without touching the device. -/
theorem invalid_kind_terminates_session (dev : server_device) (msg : incoming_message) :
    (blockv_request.is_valid msg.kind = true ↔ 0xB0 < msg.kind ∧ msg.kind < 0xB4) ∧
    (¬(0xB0 < msg.kind ∧ msg.kind < 0xB4) →
      handle_one_request dev msg =
        { dev := dev, sent := [], continue_session := false }) := by
  constructor
  · simp [blockv_request.is_valid, blockv_requests.FIRST, blockv_requests.LAST,
      blockv_requests.FINISH]
  · intro h
    have hv : blockv_request.is_valid msg.kind = false := by
      simp only [blockv_request.is_valid, blockv_requests.FIRST,
        blockv_requests.LAST, blockv_requests.FINISH]
      simp only [Bool.and_eq_false_iff, decide_eq_false_iff_not]
      omega
    unfold handle_one_request
    rw [hv]
    simp

/-- Witness for C4: kind byte 0x42 is rejected and ends the session with no
response sent. -/
theorem invalid_kind_terminates_session_witness :
    handle_one_request { data := [1, 2, 3], read_only := false }
        { kind := 0x42, size := 1, offset := 0, payload := [] } =
      { dev := { data := [1, 2, 3], read_only := false }, sent := [],
        continue_session := false } :=
  (invalid_kind_terminates_session
    { data := [1, 2, 3], read_only := false }
    { kind := 0x42, size := 1, offset := 0, payload := [] }).2 (by decide)

/-- C3: the WriteResponse sent back after executing a WRITE carries the
request's size field (not the count of bytes the backing store reported). -/
theorem write_response_carries_requested_size (dev : server_device)
    (msg : incoming_message) (hk : msg.kind = blockv_requests.WRITE)
    (hro : dev.read_only = false) :
    (handle_one_request dev msg).sent =
      [server_response.write_response msg.size] := by
  unfold handle_one_request
  rw [hk, hro]
  simp [blockv_request.is_valid, blockv_requests.FIRST, blockv_requests.LAST,
    blockv_requests.FINISH, blockv_requests.READ, blockv_requests.WRITE]

/-- Witness for C3 on a 10-byte writable device: a WRITE of 100 bytes at
offset 0 stores only 10 bytes, yet the response carries the requested 100. -/
theorem write_response_carries_requested_size_witness :
    (handle_one_request { data := List.replicate 10 0, read_only := false }
        { kind := 0xB2, size := 100, offset := 0,
          payload := List.replicate 100 7 }).sent =
      [server_response.write_response 100] ∧
    (block_device.write { data := List.replicate 10 0, read_only := false }
        (List.replicate 100 7) 100 0).2 = 10 := by
  constructor
  · exact write_response_carries_requested_size
      { data := List.replicate 10 0, read_only := false }
      { kind := 0xB2, size := 100, offset := 0, payload := List.replicate 100 7 }
      rfl rfl
  · decide

/-- C7: a WriteRequest received while the backing store is read-only is
skipped silently: the device is unchanged, nothing is sent, and the session
continues with the next request. -/
theorem read_only_write_skipped (dev : server_device) (msg : incoming_message)
    (hk : msg.kind = blockv_requests.WRITE) (hro : dev.read_only = true) :
    handle_one_request dev msg =
      { dev := dev, sent := [], continue_session := true } := by
  unfold handle_one_request
  rw [hk, hro]
  simp [blockv_request.is_valid, blockv_requests.FIRST, blockv_requests.LAST,
    blockv_requests.FINISH, blockv_requests.READ, blockv_requests.WRITE]

/-- Witness for C7: a WRITE against a read-only 3-byte device leaves the
bytes unchanged, sends nothing, and keeps the session alive. -/
theorem read_only_write_skipped_witness :
    handle_one_request { data := [10, 20, 30], read_only := true }
        { kind := 0xB2, size := 3, offset := 0, payload := [1, 2, 3] } =
      { dev := { data := [10, 20, 30], read_only := true }, sent := [],
        continue_session := true } :=
  read_only_write_skipped
    { data := [10, 20, 30], read_only := true }
    { kind := 0xB2, size := 3, offset := 0, payload := [1, 2, 3] } rfl rfl

/-! ## Multi-message write reassembly (WRITE branch of handle_client_requests)

The payload of a WriteRequest may be fragmented over several socket reads:
the server memcpy-s the fragment present in the first message and then loops
`while (remaining_bytes > 0) { ret = read(...); remaining_bytes -= ret;
offset += ret; }`.  The loop is modelled over the list of chunk values the
socket reads return; `none` means the stream ended while the loop still
wanted bytes (the real loop would block). -/

def write_reassembly_loop (acc : List Nat) (remaining : Int) :
    List (List Nat) → Option (List Nat × Int)
  | [] => if remaining > 0 then none else some (acc, remaining)
  | c :: cs =>
    if remaining > 0 then
      write_reassembly_loop (acc ++ c) (remaining - c.length) cs
    else some (acc, remaining)

-- The read(2) contract for the loop body: each socket read returns a
-- positive count no larger than the remaining_bytes it asked for, and the
-- client sends exactly the request's payload, so the stream covers the
-- remaining bytes exactly.
def chunks_ok : Int → List (List Nat) → Bool
  | r, [] => decide (r = 0)
  | r, c :: cs =>
    decide (0 < r) && decide (0 < c.length) &&
      decide ((c.length : Int) ≤ r) && chunks_ok (r - (c.length : Int)) cs

-- The WRITE branch before dev.write(): copy the fragment arriving with the
-- request header, then reassemble: remaining_bytes = size - fragment length.
def handle_write_payload (request_size : Nat) (first_fragment : List Nat)
    (chunks : List (List Nat)) : Option (List Nat × Int) :=
  write_reassembly_loop first_fragment
    ((request_size : Int) - first_fragment.length) chunks

theorem write_reassembly_loop_ok (chunks : List (List Nat)) :
    ∀ (acc : List Nat) (r : Int), chunks_ok r chunks = true →
      write_reassembly_loop acc r chunks = some (acc ++ chunks.flatten, 0) := by
  induction chunks with
  | nil =>
    intro acc r h
    have hr : r = 0 := by simpa [chunks_ok] using h
    simp [write_reassembly_loop, hr]
  | cons c cs ih =>
    intro acc r h
    simp only [chunks_ok, Bool.and_eq_true, decide_eq_true_eq] at h
    obtain ⟨⟨⟨hr, _⟩, _⟩, hrest⟩ := h
    rw [write_reassembly_loop, if_pos hr, ih (acc ++ c) (r - c.length) hrest]
    simp [List.flatten_cons]

theorem chunks_ok_flatten_length (chunks : List (List Nat)) :
    ∀ r : Int, chunks_ok r chunks = true → (chunks.flatten.length : Int) = r := by
  induction chunks with
  | nil =>
    intro r h
    have hr : r = 0 := by simpa [chunks_ok] using h
    simp [hr]
  | cons c cs ih =>
    intro r h
    simp only [chunks_ok, Bool.and_eq_true, decide_eq_true_eq] at h
    obtain ⟨⟨⟨_, _⟩, _⟩, hrest⟩ := h
    have := ih (r - c.length) hrest
    simp only [List.flatten_cons, List.length_append]
    push_cast
    omega

/-- C5: when every socket read returns a positive count bounded by the bytes
still missing and the stream supplies exactly the request's payload, the
reassembled buffer handed to the backing store is the first message's
fragment followed by all subsequently read chunks in arrival order, the
remaining_bytes counter is exactly 0 at loop exit, and the buffer holds
exactly request_size bytes. -/
theorem write_reassembly_concatenates (request_size : Nat)
    (first_fragment : List Nat) (chunks : List (List Nat))
    (h : chunks_ok ((request_size : Int) - first_fragment.length) chunks = true) :
    handle_write_payload request_size first_fragment chunks =
      some (first_fragment ++ chunks.flatten, 0) ∧
    (first_fragment ++ chunks.flatten).length = request_size := by
  refine ⟨write_reassembly_loop_ok chunks first_fragment _ h, ?_⟩
  have := chunks_ok_flatten_length chunks _ h
  simp only [List.length_append]
  omega

/-- Witness for C5: an 8-byte write whose payload arrives as a 3-byte
fragment plus chunks of 2 and 3 bytes reassembles in order with
remaining_bytes 0. -/
theorem write_reassembly_concatenates_witness :
    handle_write_payload 8 [1, 2, 3] [[4, 5], [6, 7, 8]] =
      some ([1, 2, 3] ++ [[4, 5], [6, 7, 8]].flatten, 0) ∧
    (([1, 2, 3] : List Nat) ++ [[4, 5], [6, 7, 8]].flatten).length = 8 :=
  write_reassembly_concatenates 8 [1, 2, 3] [[4, 5], [6, 7, 8]] (by decide)

/-! ## Client read path (network_block_device::read, blockv_fuse.cc)

Models the tail of network_block_device::read, from the point where the
ReadRequest has been written in full and the 4-byte response metadata has
been read in full and converted to host order.  The observable behaviour is
an event trace plus the returned byte count.  The event vocabulary includes
a `reconnect` action so that the specification's reconnect-on-failure claim
is statable; the source of blockv_fuse.cc contains no reconnect routine, so
no branch of the model emits it. -/

inductive client_event where
  | got_response_metadata (resp_size : Nat)
  | reconnect
  | returned (ret : Nat)
deriving DecidableEq

inductive client_loop_result where
  | ok (buf : List Nat)
  | aborted
  | blocked
deriving DecidableEq

-- while (remaining_bytes > 0): a 0-byte read (server gone) aborts with 0;
-- otherwise the chunk is appended and remaining_bytes decreases.
def client_payload_loop (acc : List Nat) (remaining : Int) :
    List (List Nat) → client_loop_result
  | [] => if remaining > 0 then client_loop_result.blocked else client_loop_result.ok acc
  | c :: cs =>
    if remaining > 0 then
      if c.length = 0 then client_loop_result.aborted
      else client_payload_loop (acc ++ c) (remaining - c.length) cs
    else client_loop_result.ok acc

-- network_block_device::read after the response metadata arrived: compare
-- the response size against the requested size, then read the payload.
def network_block_device.read_tail (size resp_size : Nat)
    (chunks : List (List Nat)) : List client_event × Nat :=
  if resp_size ≠ size then
    -- log, delete response_buf, return 0; the connection object is untouched.
    ([client_event.got_response_metadata resp_size, client_event.returned 0], 0)
  else
    match client_payload_loop [] (resp_size : Int) chunks with
    | client_loop_result.ok _ =>
      ([client_event.got_response_metadata resp_size,
        client_event.returned resp_size], resp_size)
    | _ =>
      ([client_event.got_response_metadata resp_size,
        client_event.returned 0], 0)

/-- C6 counterexample: a ReadResponse whose size (3) differs from the
requested size (5) makes the client return 0, but no reconnect happens —
the source has no reconnect routine and the connection is kept as is — so
the claim that the client calls reconnect() is false at this input. -/
theorem mismatched_read_response_no_reconnect_counterexample :
    (network_block_device.read_tail 5 3 []).2 = 0 ∧
    client_event.reconnect ∉ (network_block_device.read_tail 5 3 []).1 := by
  decide

/-- C6 (amended): for every Remote-device read whose ReadResponse metadata
carries a size different from the requested size, the client treats it as a
protocol failure and returns 0 to the caller, discarding the response; it
does not reconnect (no reconnect event is ever emitted) and the connection
is left in place. -/
theorem mismatched_read_response_returns_zero (size resp_size : Nat)
    (chunks : List (List Nat)) (h : resp_size ≠ size) :
    network_block_device.read_tail size resp_size chunks =
      ([client_event.got_response_metadata resp_size,
        client_event.returned 0], 0) ∧
    client_event.reconnect ∉ (network_block_device.read_tail size resp_size chunks).1 := by
  unfold network_block_device.read_tail
  rw [if_pos h]
  simp

/-- Witness for C6: requested 5 bytes, response metadata says 100. -/
theorem mismatched_read_response_returns_zero_witness :
    network_block_device.read_tail 5 100 [[1]] =
      ([client_event.got_response_metadata 100, client_event.returned 0], 0) ∧
    client_event.reconnect ∉ (network_block_device.read_tail 5 100 [[1]]).1 :=
  mismatched_read_response_returns_zero 5 100 [[1]] (by decide)

/-! ## FUSE-side device registry (blockv_fuse.cc)

The registry maps path strings to polymorphic devices; a memory device owns
an optional content buffer (nullptr until fs_truncate allocates it), a
network device owns its target string (kept as its bytes) and the
server-reported device size.  std::unordered_map::emplace inserts only when
the key is absent, which is exactly how it is embedded. -/

def EPERM : Int := 1
def ENOENT : Int := 2
def EEXIST : Int := 17

inductive fuse_device where
  | memory (content : Option (List Nat))
  | network (target : List Nat) (device_size : Nat)
deriving DecidableEq

def fuse_device.size : fuse_device → Nat
  | fuse_device.memory Option.none => 0
  | fuse_device.memory (Option.some c) => c.length
  | fuse_device.network _ ds => ds

def get_block_device : List (String × fuse_device) → String → Option fuse_device
  | [], _ => Option.none
  | (k, v) :: rest, path => if k = path then Option.some v else get_block_device rest path

def block_device_exists (r : List (String × fuse_device)) (path : String) : Bool :=
  (get_block_device r path).isSome

-- std::unordered_map::emplace: the element is inserted only if the key is
-- not already in the container.
def registry_emplace (r : List (String × fuse_device)) (path : String)
    (dev : fuse_device) : List (String × fuse_device) :=
  if block_device_exists r path then r else r ++ [(path, dev)]

-- blockv_fuse::add_memory_based_block_device: emplace a fresh
-- memory_based_block_device (content nullptr, size 0).
def add_memory_based_block_device (r : List (String × fuse_device))
    (path : String) : List (String × fuse_device) :=
  registry_emplace r path (fuse_device.memory Option.none)

-- fs_create: an existing entry is an error only with O_EXCL; otherwise a
-- fresh memory device is added.
def fs_create (r : List (String × fuse_device)) (path : String)
    (exclusive : Bool) : List (String × fuse_device) × Int :=
  if block_device_exists r path then
    if exclusive then (r, -EEXIST) else (r, 0)
  else (add_memory_based_block_device r path, 0)

-- In-place mutation of the device object an existing entry points to.
def update_device (r : List (String × fuse_device)) (path : String)
    (dev : fuse_device) : List (String × fuse_device) :=
  r.map (fun p => if p.1 = path then (path, dev) else p)

-- fs_truncate: only a memory device whose buffer is still unallocated may
-- be sized; the fresh allocation is modelled zero-filled (the source leaves
-- `new char[size]` uninitialized; the claims only concern its length).
def fs_truncate (r : List (String × fuse_device)) (path : String)
    (size : Nat) : List (String × fuse_device) × Int :=
  match get_block_device r path with
  | Option.none => (r, -ENOENT)
  | Option.some (fuse_device.network _ _) => (r, -EPERM)
  | Option.some (fuse_device.memory content) =>
    if (fuse_device.memory content).size ≠ 0 then (r, -EPERM)
    else (update_device r path
      (fuse_device.memory (Option.some (List.replicate size 0))), 0)

-- fs_readlink: copy min(target.size(), size - 1) bytes of the target into
-- the caller's buffer and null-terminate it.
def fs_readlink (r : List (String × fuse_device)) (path : String)
    (buf : List Nat) (size : Nat) : List Nat × Int :=
  if block_device_exists r path = false then (buf, -ENOENT)
  else
    match get_block_device r path with
    | Option.some (fuse_device.network target _) =>
      let to_write := min target.length (size - 1)
      let buf1 := list_store buf 0 (target.take to_write)
      (list_store buf1 to_write [0], 0)
    | _ => (buf, -EPERM)

theorem get_block_device_append_self (r : List (String × fuse_device))
    (path : String) (dev : fuse_device)
    (h : get_block_device r path = Option.none) :
    get_block_device (r ++ [(path, dev)]) path = Option.some dev := by
  induction r with
  | nil => simp [get_block_device]
  | cons p rest ih =>
    rw [get_block_device] at h
    by_cases hk : p.1 = path
    · rw [if_pos hk] at h
      exact absurd h (by simp)
    · rw [if_neg hk] at h
      rw [List.cons_append, get_block_device, if_neg hk]
      exact ih h

theorem get_block_device_update (r : List (String × fuse_device))
    (path : String) (dev x : fuse_device)
    (h : get_block_device r path = Option.some x) :
    get_block_device (update_device r path dev) path = Option.some dev := by
  induction r with
  | nil => simp [get_block_device] at h
  | cons p rest ih =>
    rw [get_block_device] at h
    by_cases hk : p.1 = path
    · rw [update_device, List.map_cons, if_pos hk, get_block_device]
      simp
    · rw [if_neg hk] at h
      rw [update_device, List.map_cons, if_neg hk, get_block_device, if_neg hk]
      exact ih h

/-- C8 counterexample: add_memory_based_block_device uses emplace, which does
not replace.  On a registry already holding a one-byte memory device at /a,
adding /a again leaves the registry unchanged: afterwards /a still maps to
the old device, not to a newly created empty one. -/
theorem add_memory_no_replace_counterexample :
    add_memory_based_block_device
        [("/a", fuse_device.memory (Option.some [7]))] "/a" =
      [("/a", fuse_device.memory (Option.some [7]))] ∧
    get_block_device
        (add_memory_based_block_device
          [("/a", fuse_device.memory (Option.some [7]))] "/a") "/a" ≠
      Option.some (fuse_device.memory Option.none) := by
  decide

/-- C8 (amended): add_memory_based_block_device(path) creates an empty
memory-backed entry when the path has no entry; adding at a path that
already has an entry leaves the registry unchanged (emplace does not
replace the existing entry). -/
theorem add_memory_creates_empty_entry (r : List (String × fuse_device))
    (path : String) :
    (block_device_exists r path = false →
      get_block_device (add_memory_based_block_device r path) path =
        Option.some (fuse_device.memory Option.none)) ∧
    (block_device_exists r path = true →
      add_memory_based_block_device r path = r) := by
  constructor
  · intro h
    have hn : get_block_device r path = Option.none := by
      have := h
      unfold block_device_exists at this
      exact Option.not_isSome_iff_eq_none.mp (by simp [this])
    unfold add_memory_based_block_device registry_emplace
    rw [h]
    simpa using get_block_device_append_self r path _ hn
  · intro h
    unfold add_memory_based_block_device registry_emplace
    rw [h]
    simp

/-- Witness for C8: adding /dev0 to the empty registry maps /dev0 to the
fresh empty memory device; adding /a when /a exists changes nothing. -/
theorem add_memory_creates_empty_entry_witness :
    get_block_device (add_memory_based_block_device [] "/dev0") "/dev0" =
      Option.some (fuse_device.memory Option.none) ∧
    add_memory_based_block_device
        [("/a", fuse_device.memory (Option.some [7]))] "/a" =
      [("/a", fuse_device.memory (Option.some [7]))] :=
  ⟨(add_memory_creates_empty_entry [] "/dev0").1 (by decide),
   (add_memory_creates_empty_entry
     [("/a", fuse_device.memory (Option.some [7]))] "/a").2 (by decide)⟩

/-- C9: truncate on a memory-backed device whose buffer is unallocated
(size() = 0) allocates a buffer of the given size and succeeds; on a memory
device whose size() is non-zero it fails with -EPERM and leaves the
registry — hence the device's buffer and size — unchanged. -/
theorem fs_truncate_spec (r : List (String × fuse_device)) (path : String)
    (size : Nat) (content : Option (List Nat))
    (h : get_block_device r path = Option.some (fuse_device.memory content)) :
    ((fuse_device.memory content).size = 0 →
      fs_truncate r path size =
        (update_device r path
          (fuse_device.memory (Option.some (List.replicate size 0))), 0) ∧
      get_block_device (fs_truncate r path size).1 path =
        Option.some (fuse_device.memory (Option.some (List.replicate size 0))) ∧
      (fuse_device.memory (Option.some (List.replicate size 0))).size = size) ∧
    ((fuse_device.memory content).size ≠ 0 →
      fs_truncate r path size = (r, -EPERM)) := by
  constructor
  · intro hz
    have he : fs_truncate r path size =
        (update_device r path
          (fuse_device.memory (Option.some (List.replicate size 0))), 0) := by
      unfold fs_truncate
      rw [h]
      simp [hz]
    refine ⟨he, ?_, by simp [fuse_device.size]⟩
    rw [he]
    exact get_block_device_update r path _ _ h
  · intro hz
    unfold fs_truncate
    rw [h]
    simp [hz]

/-- Witness for C9: the first truncate of /m to 4 bytes allocates and
succeeds; a second truncate of the now 4-byte device fails with -EPERM and
leaves the registry unchanged. -/
theorem fs_truncate_spec_witness :
    fs_truncate [("/m", fuse_device.memory Option.none)] "/m" 4 =
      (update_device [("/m", fuse_device.memory Option.none)] "/m"
        (fuse_device.memory (Option.some (List.replicate 4 0))), 0) ∧
    fs_truncate [("/m", fuse_device.memory (Option.some [0, 0, 0, 0]))] "/m" 9 =
      ([("/m", fuse_device.memory (Option.some [0, 0, 0, 0]))], -EPERM) :=
  ⟨((fs_truncate_spec [("/m", fuse_device.memory Option.none)] "/m" 4
      Option.none (by decide)).1 (by decide)).1,
   (fs_truncate_spec [("/m", fuse_device.memory (Option.some [0, 0, 0, 0]))]
      "/m" 9 (Option.some [0, 0, 0, 0]) (by decide)).2 (by decide)⟩

/-- C10: for a registered remote device and a buffer of size ≥ 1, readlink
fills the buffer with min(target length, size - 1) bytes of the stored
target followed by a terminating null byte at index min(target length,
size - 1) — so at most size - 1 target bytes are copied — leaving the rest
of the buffer untouched, and returns 0; on a memory-backed device it
returns -EPERM and on an unknown path -ENOENT, with the buffer unchanged. -/
theorem fs_readlink_spec (r : List (String × fuse_device)) (path : String)
    (buf : List Nat) (size : Nat) :
    (∀ (target : List Nat) (dsz : Nat),
      get_block_device r path = Option.some (fuse_device.network target dsz) →
      1 ≤ size → buf.length = size →
      (fs_readlink r path buf size).2 = 0 ∧
      (fs_readlink r path buf size).1 =
        target.take (min target.length (size - 1)) ++
          0 :: buf.drop (min target.length (size - 1) + 1) ∧
      (fs_readlink r path buf size).1.length = size ∧
      min target.length (size - 1) ≤ size - 1) ∧
    (∀ content,
      get_block_device r path = Option.some (fuse_device.memory content) →
      fs_readlink r path buf size = (buf, -EPERM)) ∧
    (get_block_device r path = Option.none →
      fs_readlink r path buf size = (buf, -ENOENT)) := by
  refine ⟨?_, ?_, ?_⟩
  · intro target dsz hget hsz hlen
    have hex : block_device_exists r path = true := by
      simp [block_device_exists, hget]
    set w := min target.length (size - 1) with hw
    have hwt : w ≤ target.length := Nat.min_le_left _ _
    have hws : w ≤ size - 1 := Nat.min_le_right _ _
    have hlt : (target.take w).length = w := List.length_take_of_le hwt
    have hred : fs_readlink r path buf size =
        (list_store (list_store buf 0 (target.take w)) w [0], 0) := by
      unfold fs_readlink
      rw [hex, hget]
      simp
    have h1 : list_store buf 0 (target.take w) = target.take w ++ buf.drop w := by
      unfold list_store
      simp only [List.take_zero, List.nil_append, Nat.sub_zero, Nat.zero_add, hlt]
      rw [List.take_of_length_le (by rw [hlt, hlen]; omega)]
    have h2 : list_store (target.take w ++ buf.drop w) w [0] =
        target.take w ++ 0 :: buf.drop (w + 1) := by
      unfold list_store
      rw [List.take_left' hlt]
      have hd : (target.take w ++ buf.drop w).drop (w + 1) = buf.drop (w + 1) := by
        have ha := @List.drop_append Nat (target.take w) (buf.drop w) 1
        rw [hlt] at ha
        rw [ha, List.drop_drop]
      simp only [List.length_singleton]
      rw [hd]
      have hlen2 : (target.take w ++ buf.drop w).length - w = size - w := by
        simp only [List.length_append, hlt, List.length_drop, hlen]
        omega
      have h01 : ([0] : List Nat).length ≤ size - w := by
        simp only [List.length_singleton]
        omega
      rw [hlen2, List.take_of_length_le h01]
      simp
    refine ⟨by rw [hred], ?_, ?_, hws⟩
    · rw [hred]
      show list_store (list_store buf 0 (target.take w)) w [0] = _
      rw [h1, h2]
    · rw [hred]
      show (list_store (list_store buf 0 (target.take w)) w [0]).length = size
      rw [h1, h2]
      simp only [List.length_append, List.length_cons, List.length_drop, hlt, hlen]
      omega
  · intro content hget
    have hex : block_device_exists r path = true := by
      simp [block_device_exists, hget]
    unfold fs_readlink
    rw [hex, hget]
    simp
  · intro hget
    have hex : block_device_exists r path = false := by
      simp [block_device_exists, hget]
    unfold fs_readlink
    rw [hex]
    simp

/-- Witness for C10: a remote device at /n with a 3-byte target and a 10-byte
buffer: all 3 target bytes are copied, the null lands at index 3, the rest of
the buffer is untouched, and the call returns 0. -/
theorem fs_readlink_spec_witness :
    (fs_readlink [("/n", fuse_device.network [104, 58, 112] 0)] "/n"
        (List.replicate 10 1) 10).2 = 0 ∧
    (fs_readlink [("/n", fuse_device.network [104, 58, 112] 0)] "/n"
        (List.replicate 10 1) 10).1 =
      [104, 58, 112, 0, 1, 1, 1, 1, 1, 1] := by
  have h := (fs_readlink_spec [("/n", fuse_device.network [104, 58, 112] 0)]
    "/n" (List.replicate 10 1) 10).1 [104, 58, 112] 0 (by decide) (by norm_num)
    (by decide)
  refine ⟨h.1, ?_⟩
  rw [h.2.1]
  decide
